import Mathlib

/-!
# Verification of the cheershare authentication core

A shallow embedding of the OTP-based signup/authentication flow of the
cheershare backend (Go): the OTP generator (`generateOTP`), the Redis OTP
store (`storeOTPInRedis`, `verifyOTPInRedis`), user provisioning
(`createUserIfNotExists`), bearer-token issuance and lookup
(`generateToken`, `TokenModel.New`, `UserModel.GetForToken`), the
authentication middleware (`authenticate`, `requireAuthenticatedUser`),
the SMS dispatcher (`sendOTPViaTwilio`) and the combined signup handler
(`handleUserSignupAndVerification`).

Machine integers are modelled as `Nat` (random bytes as `Nat < 256`),
instants and Go durations as `Nat` counted in seconds, Go strings as
Lean `String` (with `utf8Len` standing for Go's byte-counting `len`),
the relational store as explicit lists of rows, and the Redis cache as a
function from keys to optional entries carrying their expiry instant.
Randomness and environment failures (failing SQL statements, failing
SMS attempts) enter as explicit parameters.
-/

/-- ASCII digit character for `d < 10` (Go's decimal formatting). -/
def digitChar (d : Nat) : Char := Char.ofNat (48 + d)

/-- Go's `fmt.Sprintf("%04d", n)` for `n < 10000`: the four decimal
digits of `n`, zero-padded on the left. Every call site feeds it
`n % 10000`, so the 4-digit case is the only reachable one. -/
def fmt04 (n : Nat) : String :=
  String.mk [digitChar (n / 1000 % 10), digitChar (n / 100 % 10),
             digitChar (n / 10 % 10), digitChar (n % 10)]

/-- Go's `strings.Split` restricted to a single-character separator:
splits at every occurrence, keeping empty fields (`Split("", sep) = [""]`). -/
def splitOnChar (sep : Char) : List Char → List (List Char)
  | [] => [[]]
  | c :: rest =>
    match splitOnChar sep rest with
    | [] => [[c]]
    | h :: t => if c = sep then [] :: h :: t else (c :: h) :: t

/-- Go's `len` on a string counts UTF-8 bytes. -/
def utf8Len (s : String) : Nat := (s.data.map Char.utf8Size).sum

/-- `generateOTP` (part_004): reads two random bytes, then formats
`int(otp[0]) % 10000` with `%04d`. The input models the random bytes
delivered by `crypto/rand.Read`; only the byte at index 0 is consulted. -/
def generateOTP (randomBytes : List Nat) : String :=
  fmt04 (randomBytes.getD 0 0 % 10000)

/-! ## Base-32 encoding (`encoding/base32`, `StdEncoding`, `NoPadding`) -/

/-- The standard base-32 alphabet used by Go's `base32.StdEncoding`. -/
def base32Alphabet : List Char := "ABCDEFGHIJKLMNOPQRSTUVWXYZ234567".toList

/-- The eight bits of a byte, most significant first. -/
def byteToBits (b : Nat) : List Bool :=
  [b.testBit 7, b.testBit 6, b.testBit 5, b.testBit 4,
   b.testBit 3, b.testBit 2, b.testBit 1, b.testBit 0]

/-- Bit stream of a byte string, most significant bit of each byte first. -/
def bytesToBits (bytes : List Nat) : List Bool := (bytes.map byteToBits).flatten

/-- Split a bit stream into 5-bit groups, zero-padding the final group —
how `encoding/base32` fills the last quantum when padding is disabled. -/
def toQuintets : List Bool → List (List Bool)
  | [] => []
  | [a] => [[a, false, false, false, false]]
  | [a, b] => [[a, b, false, false, false]]
  | [a, b, c] => [[a, b, c, false, false]]
  | [a, b, c, d] => [[a, b, c, d, false]]
  | a :: b :: c :: d :: e :: rest => [a, b, c, d, e] :: toQuintets rest
termination_by structural l => l

/-- Numeric value of a bit group, most significant bit first. -/
def bitsVal (g : List Bool) : Nat :=
  g.foldl (fun acc b => 2 * acc + (if b then 1 else 0)) 0

/-- `base32.StdEncoding.WithPadding(base32.NoPadding).EncodeToString`:
5-bit groups of the input's bit stream mapped through the alphabet,
no padding characters. -/
def base32EncodeNoPad (bytes : List Nat) : String :=
  String.mk ((toQuintets (bytesToBits bytes)).map
    (fun g => base32Alphabet.getD (bitsVal g) 'A'))

example : generateOTP [200, 17] = "0200" := by decide
example : generateOTP [] = "0000" := by decide
example : base32EncodeNoPad [0] = "AA" := by decide
example : base32EncodeNoPad [255, 255] = "777Q" := by decide
example : (base32EncodeNoPad (List.replicate 16 0)).length = 26 := by decide

/-! ## Data model (`internal/data`) -/

/-- `data.User` (users.go): numeric ID, creation timestamp, display name,
phone number (the natural key), optimistic-concurrency version. -/
structure User where
  ID : Int
  CreatedAt : Nat
  Name : String
  PhoneNumber : String
  Version : Int
deriving DecidableEq, Repr

/-- `data.Token` (tokens.go). The hash is a byte string (`[]byte`). -/
structure Token where
  Plaintext : String
  Hash : List Nat
  UserId : Int
  Expiry : Nat
  Scope : String
deriving DecidableEq, Repr

/-- A persisted row of the `tokens` table. -/
structure TokenRow where
  hash : List Nat
  user_id : Int
  expiry : Nat
  scope : String
deriving DecidableEq, Repr

/-- The relational store: the `users` and `tokens` tables. -/
structure DBState where
  users : List User
  tokens : List TokenRow
deriving DecidableEq, Repr

/-- Errors surfaced by the data layer: `sql.ErrNoRows`,
`data.ErrRecordNotFound`, and any other storage error with its message. -/
inductive DBError where
  | noRows
  | recordNotFound
  | other (msg : String)
deriving DecidableEq, Repr

/-- `data.ScopeAuthentication`. -/
def ScopeAuthentication : String := "authentication"

/-- Go durations, modelled in seconds. -/
def second : Nat := 1

def minute : Nat := 60 * second

def hour : Nat := 60 * minute

/-! ## Token issuance and lookup (tokens.go, users.go) -/

/-- `generateToken` (tokens.go): expiry `now + ttl`, plaintext the
unpadded base-32 encoding of 16 random bytes, hash the SHA-256 digest of
the plaintext. The digest function and the random bytes are parameters of
the embedding; `rand.Read` failure (the only error path) is environmental
and not modelled. -/
def generateToken (sha256 : String → List Nat) (randomBytes : List Nat)
    (now : Nat) (userId : Int) (ttl : Nat) (scope : String) : Token :=
  let plaintext := base32EncodeNoPad randomBytes
  { Plaintext := plaintext
    Hash := sha256 plaintext
    UserId := userId
    Expiry := now + ttl
    Scope := scope }

/-- `TokenModel.Insert`: executes the INSERT; `execErr` models a failure
of the SQL statement (timeout, connection loss), in which case no row is
written and the error is returned. -/
def TokenModel.Insert (db : DBState) (token : Token) (execErr : Option String) :
    DBState × Option String :=
  match execErr with
  | some e => (db, some e)
  | none =>
    ({ db with tokens := db.tokens ++ [⟨token.Hash, token.UserId, token.Expiry, token.Scope⟩] },
     none)

/-- `TokenModel.New`: `generateToken` then `Insert`. Mirrors the Go
source exactly: `err = m.Insert(token); return token, err` — the token
(plaintext included) is returned together with any insert error. -/
def TokenModel.New (sha256 : String → List Nat) (randomBytes : List Nat)
    (now : Nat) (userId : Int) (ttl : Nat) (scope : String)
    (db : DBState) (execErr : Option String) :
    Token × DBState × Option String :=
  let token := generateToken sha256 randomBytes now userId ttl scope
  let (db', err) := TokenModel.Insert db token execErr
  (token, db', err)

/-- `UserModel.GetForToken` (users.go): recompute the digest, select the
join of `users` and `tokens` on `hash = $1 AND scope = $2 AND expiry > $3`,
map `sql.ErrNoRows` to `ErrRecordNotFound`. `queryErr` models an
unexpected storage failure of the query itself. -/
def UserModel.GetForToken (sha256 : String → List Nat) (db : DBState)
    (queryErr : Option String) (tokenScope tokenPlainText : String) (now : Nat) :
    Except DBError User :=
  match queryErr with
  | some e => .error (.other e)
  | none =>
    let tokenHash := sha256 tokenPlainText
    match db.tokens.find? (fun r =>
        decide (r.hash = tokenHash ∧ r.scope = tokenScope ∧ now < r.expiry)) with
    | none => .error .recordNotFound
    | some r =>
      match db.users.find? (fun u => decide (u.ID = r.user_id)) with
      | none => .error .recordNotFound
      | some u => .ok u

/-- `generateTokenForUser` (part_004): `Token.New` with a 48-hour TTL and
the `"authentication"` scope; on error returns the empty string, otherwise
the plaintext. -/
def generateTokenForUser (sha256 : String → List Nat) (randomBytes : List Nat)
    (now : Nat) (db : DBState) (execErr : Option String) (userID : Int) :
    String × DBState × Option String :=
  let (token, db', err) :=
    TokenModel.New sha256 randomBytes now userID (48 * hour) ScopeAuthentication db execErr
  match err with
  | some e => ("", db', some ("failed to generate token: " ++ e))
  | none => (token.Plaintext, db', none)

/-! ## User provisioning (users.go, part_004) -/

/-- `UserModel.GetByPhoneNumber`: select by phone number; absence
surfaces as `sql.ErrNoRows` from `Scan`; `queryErr` models any other
storage failure of the query. -/
def UserModel.GetByPhoneNumber (db : DBState) (queryErr : Option String)
    (phoneNumber : String) : Except DBError User :=
  match queryErr with
  | some e => .error (.other e)
  | none =>
    match db.users.find? (fun u => decide (u.PhoneNumber = phoneNumber)) with
    | some u => .ok u
    | none => .error .noRows

/-- `UserModel.Insert`: INSERT ... RETURNING id, created_at, version.
The database assigns the serial `newId`, the creation instant and
version 1; `execErr` models a failing statement (no row written). -/
def UserModel.Insert (db : DBState) (now : Nat) (newId : Int)
    (execErr : Option String) (name phoneNumber : String) :
    Except String (User × DBState) :=
  match execErr with
  | some e => .error e
  | none =>
    let u : User := ⟨newId, now, name, phoneNumber, 1⟩
    .ok (u, { db with users := db.users ++ [u] })

deriving instance DecidableEq for Except

/-- Result of `createUserIfNotExists`: the returned user or error, the
store afterwards, and whether an INSERT was attempted. -/
structure ProvisionResult where
  result : Except String User
  dbAfter : DBState
  insertAttempted : Bool
deriving DecidableEq, Repr

/-- `createUserIfNotExists` (part_004): look the user up by phone number;
on `err == nil && user != nil` return the existing record; otherwise —
for any lookup error whatsoever — insert a fresh user. -/
def createUserIfNotExists (db : DBState) (lookupErr : Option String)
    (now : Nat) (newId : Int) (insertErr : Option String)
    (phoneNumber name : String) : ProvisionResult :=
  match UserModel.GetByPhoneNumber db lookupErr phoneNumber with
  | .ok u => ⟨.ok u, db, false⟩
  | .error _ =>
    match UserModel.Insert db now newId insertErr name phoneNumber with
    | .error e => ⟨.error ("failed to create user: " ++ e), db, true⟩
    | .ok (u, db') => ⟨.ok u, db', true⟩

/-! ## OTP store (part_004, Redis) -/

/-- A pending OTP hash stored in Redis under a phone-number key: fields
`name` and `otp`, plus the instant at which the key expires. -/
structure CacheEntry where
  name : String
  otp : String
  expiresAt : Nat
deriving DecidableEq, Repr

/-- The Redis cache: phone number to optional entry. -/
def CacheState : Type := String → Option CacheEntry

/-- Redis `HGETALL` at instant `now`: the field map of a live key, empty
for a missing or expired key. -/
def hGetAll (σ : CacheState) (now : Nat) (key : String) : List (String × String) :=
  match σ key with
  | some e => if now < e.expiresAt then [("name", e.name), ("otp", e.otp)] else []
  | none => []

/-- Go map indexing with the zero value `""` for an absent field. -/
def fieldGetD (m : List (String × String)) (k : String) : String :=
  match m.find? (fun p => decide (p.1 = k)) with
  | some p => p.2
  | none => ""

/-- `storeOTPInRedis` (part_004): `HSet` of `{name, otp}` under the phone
number, then `Expire` 5 minutes. Both calls assumed to succeed here (the
handler turns either failure into a 500 before anything else happens). -/
def storeOTPInRedis (σ : CacheState) (now : Nat) (phoneNumber name otp : String) :
    CacheState :=
  fun k => if k = phoneNumber then some ⟨name, otp, now + 5 * minute⟩ else σ k

/-- `verifyOTPInRedis` (part_004): `HGetAll`; a read error or an empty
result (missing or expired key) yields "invalid or expired OTP"; a stored
code differing from the supplied one yields "invalid OTP"; otherwise the
stored name. The cache state is returned unchanged: the function performs
no write or delete. -/
def verifyOTPInRedis (σ : CacheState) (now : Nat) (phoneNumber otp : String) :
    Except String String × CacheState :=
  let userData := hGetAll σ now phoneNumber
  if userData.length = 0 then (.error "invalid or expired OTP", σ)
  else
    let storedOTP := fieldGetD userData "otp"
    if otp ≠ storedOTP then (.error "invalid OTP", σ)
    else (.ok (fieldGetD userData "name"), σ)

/-! ## Authentication middleware (part_004) -/

/-- The identity attached to a request context. `data.AnonymousUser` is a
distinguished sentinel compared by pointer in Go (`m == AnonymousUser`);
the dedicated constructor models that identity. -/
inductive Identity where
  | anonymous
  | user (u : User)
deriving DecidableEq, Repr

/-- `User.IsAnonymous` (users.go). -/
def Identity.IsAnonymous : Identity → Bool
  | .anonymous => true
  | .user _ => false

/-- Outcome of the `authenticate` middleware on one request: an error
response short-circuiting the chain, or an identity attached to the
context; `storeLookups` counts `GetForToken` calls made. -/
structure AuthResult where
  response : Option (Nat × String)
  ident : Option Identity
  storeLookups : Nat
deriving DecidableEq, Repr

/-- `authenticate` (part_004). The header value is the result of
`r.Header.Get("Authorization")` — `""` when the header is absent. The
token store is abstracted as the `GetForToken` lookup already applied to
scope `"authentication"`. -/
def authenticate (store : String → Except DBError User) (authorizationHeader : String) :
    AuthResult :=
  if authorizationHeader = "" then ⟨none, some .anonymous, 0⟩
  else
    let headerParts := (splitOnChar ' ' authorizationHeader.data).map String.mk
    if headerParts.length ≠ 2 ∨ headerParts.headD "" ≠ "Bearer" then
      ⟨some (401, "Invalid authorization header"), none, 0⟩
    else
      let token := headerParts.getD 1 ""
      if utf8Len token ≠ 26 then
        ⟨some (401, "Invalid authorization header"), none, 0⟩
      else
        match store token with
        | .error .recordNotFound => ⟨some (401, "Invalid authorization header"), none, 1⟩
        | .error _ => ⟨some (500, "Can't find user for specified token"), none, 1⟩
        | .ok u => ⟨none, some (.user u), 1⟩

/-- `requireAuthenticatedUser` (part_004): reject the anonymous sentinel
with 401, otherwise let the wrapped handler run. `none` = proceed. -/
def requireAuthenticatedUser (ident : Identity) : Option (Nat × String) :=
  if ident.IsAnonymous then some (401, "Unauthorized") else none

/-! ## SMS dispatch (part_004, Twilio) -/

/-- The retry loop of `sendOTPViaTwilio`: up to `remaining` attempts,
numbered from `attempt`; `attemptFails k` tells whether Twilio attempt
`k` errors. Returns the result, the number of attempts made and the list
of `time.Sleep` delays performed (in seconds, one after every failed
attempt — the source sleeps even after the last failure). -/
def twilioTry (attemptFails : Nat → Bool) (attempt : Nat) :
    Nat → Except String Unit × Nat × List Nat
  | 0 => (.error "all retries failed to send OTP via Twilio", 0, [])
  | remaining + 1 =>
    if attemptFails attempt then
      let rest := twilioTry attemptFails (attempt + 1) remaining
      (rest.1, rest.2.1 + 1, 2 * second :: rest.2.2)
    else (.ok (), 1, [])

/-- `sendOTPViaTwilio` (part_004): `maxRetries = 3`, delay 2 s. -/
def sendOTPViaTwilio (attemptFails : Nat → Bool) : Except String Unit × Nat × List Nat :=
  twilioTry attemptFails 1 3

/-- The background closure the handler hands to `app.background`: it runs
`sendOTPViaTwilio` and only logs a failure — the returned value is the
list of log lines, so no error propagates anywhere. -/
def backgroundSMSTask (attemptFails : Nat → Bool) : List String :=
  match (sendOTPViaTwilio attemptFails).1 with
  | .ok _ => []
  | .error e => ["Error sending OTP via Twilio: " ++ e]

/-! ## Signup/verification handler (part_004) -/

/-- The decoded JSON request body; absent fields decode to `""`. -/
structure SignupInput where
  Name : String := ""
  PhoneNumber : String := ""
  OTP : String := ""
deriving DecidableEq, Repr

/-- An HTTP response of this handler, as status plus the envelope fields
the source puts in the body. -/
structure Response where
  status : Nat
  success : Option Bool := none
  message : String
  user : Option User := none
  token : Option String := none
deriving DecidableEq, Repr

/-- Modelled from the spec: `app.errorResponse` lives in a helper file
that is not part of the sources at hand (only its call sites are); per
§6/§7 of the specification it writes the given status with a generic
message body and no data or token. -/
def errorResponse (status : Nat) (message : String) : Response :=
  { status := status, message := message }

/-- Everything `handleUserSignupAndVerification` leaves behind besides
the response: both stores and the OTP/phone pair handed to the spawned
background SMS task (`none` when no task was spawned). -/
structure HandlerOutcome where
  response : Response
  cacheAfter : CacheState
  dbAfter : DBState
  spawnedSMS : Option (String × String)

/-- `handleUserSignupAndVerification` (part_004), after a successful JSON
decode. Environment inputs: `otpBytes` the random bytes for the OTP,
`storeErr` a Redis write failure, `sha256`/`tokenBytes` the digest
function and random bytes for token issuance, `lookupErr`/`newId`/
`insertUserErr` the environment of user provisioning, `insertTokenErr` a
token INSERT failure. The response is built before (and independently of)
the background SMS dispatch. -/
def handleUserSignupAndVerification (σ : CacheState) (db : DBState) (now : Nat)
    (otpBytes : List Nat) (storeErr : Option String)
    (sha256 : String → List Nat) (tokenBytes : List Nat)
    (lookupErr : Option String) (newId : Int) (insertUserErr insertTokenErr : Option String)
    (input : SignupInput) : HandlerOutcome :=
  if input.PhoneNumber = "" then
    ⟨errorResponse 400 "Phone number is required", σ, db, none⟩
  else if input.OTP = "" then
    if input.Name = "" then
      ⟨errorResponse 400 "Name is required for OTP generation", σ, db, none⟩
    else
      let otp := generateOTP otpBytes
      match storeErr with
      | some _ => ⟨errorResponse 500 "Failed to store OTP", σ, db, none⟩
      | none =>
        let σ' := storeOTPInRedis σ now input.PhoneNumber input.Name otp
        ⟨{ status := 200, success := some true, message := "OTP sent successfully" },
         σ', db, some (otp, input.PhoneNumber)⟩
  else
    match (verifyOTPInRedis σ now input.PhoneNumber input.OTP).1 with
    | .error _ => ⟨errorResponse 401 "Invalid or expired OTP", σ, db, none⟩
    | .ok userName =>
      match createUserIfNotExists db lookupErr now newId insertUserErr
          input.PhoneNumber userName with
      | ⟨.error _, db', _⟩ => ⟨errorResponse 500 "Failed to register user", σ, db', none⟩
      | ⟨.ok user, db', _⟩ =>
        match generateTokenForUser sha256 tokenBytes now db' insertTokenErr user.ID with
        | (_, db'', some _) =>
          ⟨errorResponse 500 "Failed to generate authentication token", σ, db'', none⟩
        | (plaintext, db'', none) =>
          ⟨{ status := 200, success := some true, user := some user,
             message := "User registered successfully", token := some plaintext },
           σ, db'', none⟩

/-! ## Helper lemmas -/

theorem toQuintets_length : ∀ l : List Bool, (toQuintets l).length = (l.length + 4) / 5
  | [] => rfl
  | [_] => by simp [toQuintets]
  | [_, _] => by simp [toQuintets]
  | [_, _, _] => by simp [toQuintets]
  | [_, _, _, _] => by simp [toQuintets]
  | _ :: _ :: _ :: _ :: _ :: rest => by
    simp only [toQuintets, List.length_cons, toQuintets_length rest]
    omega

theorem bytesToBits_length (bytes : List Nat) :
    (bytesToBits bytes).length = 8 * bytes.length := by
  induction bytes with
  | nil => rfl
  | cons b rest ih =>
    simp only [bytesToBits, List.map_cons, List.flatten_cons, List.length_append,
      List.length_cons] at *
    simp [byteToBits, ih]
    omega

theorem base32_data_length (bytes : List Nat) :
    (base32EncodeNoPad bytes).data.length = (8 * bytes.length + 4) / 5 := by
  simp [base32EncodeNoPad, toQuintets_length, bytesToBits_length]

theorem alphaGetD_mem (i : Nat) : base32Alphabet.getD i 'A' ∈ base32Alphabet := by
  rw [List.getD_eq_getElem?_getD]
  cases h : base32Alphabet[i]? with
  | none => simp only [Option.getD_none]; decide
  | some c => simpa using List.getElem?_mem h

theorem base32_char_mem (bytes : List Nat) (c : Char)
    (hc : c ∈ (base32EncodeNoPad bytes).data) : c ∈ base32Alphabet := by
  simp only [base32EncodeNoPad, List.mem_map] at hc
  obtain ⟨g, -, rfl⟩ := hc
  exact alphaGetD_mem _

theorem alphabet_utf8Size_one : ∀ c ∈ base32Alphabet, c.utf8Size = 1 := by decide

theorem alphabet_no_space : ' ' ∉ base32Alphabet := by decide

theorem sum_utf8Size_ascii (l : List Char) (h : ∀ c ∈ l, c.utf8Size = 1) :
    (l.map Char.utf8Size).sum = l.length := by
  induction l with
  | nil => rfl
  | cons c rest ih =>
    simp only [List.map_cons, List.sum_cons, List.length_cons,
      h c (List.mem_cons_self c rest),
      ih (fun x hx => h x (List.mem_cons_of_mem c hx))]
    omega

theorem utf8Len_base32 (bytes : List Nat) :
    utf8Len (base32EncodeNoPad bytes) = (8 * bytes.length + 4) / 5 := by
  unfold utf8Len
  rw [sum_utf8Size_ascii _ (fun c hc => alphabet_utf8Size_one c (base32_char_mem bytes c hc))]
  exact base32_data_length bytes

theorem base32_no_space (bytes : List Nat) : ' ' ∉ (base32EncodeNoPad bytes).data :=
  fun h => alphabet_no_space (base32_char_mem bytes ' ' h)

theorem find?_append_none {α} (l₁ l₂ : List α) (p : α → Bool)
    (h : ∀ x ∈ l₁, p x = false) : (l₁ ++ l₂).find? p = l₂.find? p := by
  rw [List.find?_append]
  have h1 : l₁.find? p = none := List.find?_eq_none.mpr (fun x hx => by simp [h x hx])
  simp [h1]

theorem splitOnChar_not_mem (sep : Char) (l : List Char) (h : sep ∉ l) :
    splitOnChar sep l = [l] := by
  induction l with
  | nil => rfl
  | cons c rest ih =>
    have hc : ¬(c = sep) := fun e => h (e ▸ List.mem_cons_self c rest)
    have hrest : sep ∉ rest := fun m => h (List.mem_cons_of_mem c m)
    simp [splitOnChar, ih hrest, hc]

theorem splitOnChar_bearer (p : String) (h : ' ' ∉ p.data) :
    splitOnChar ' ' ("Bearer " ++ p).data = ["Bearer".data, p.data] := by
  rw [String.data_append]
  show splitOnChar ' ' ('B' :: 'e' :: 'a' :: 'r' :: 'e' :: 'r' :: ' ' :: p.data) = _
  simp [splitOnChar, splitOnChar_not_mem ' ' p.data h]

/-! ## Claim theorems -/

/-- C1: the OTP generator always yields a 4-digit zero-padded numeric
string, but — contrary to the claim — its value never leaves 0–255: the
code consults only the first random byte, so `int(otp[0]) % 10000` is the
byte itself and values "0256" through "9999" are unreachable; in
particular "9999" is never produced. -/
theorem generateOTP_not_full_range (randomBytes : List Nat)
    (hbyte : randomBytes.getD 0 0 < 256) :
    randomBytes.getD 0 0 % 10000 < 256 ∧
    (generateOTP randomBytes).length = 4 ∧
    generateOTP randomBytes ≠ "9999" := by
  have hmod : randomBytes.getD 0 0 % 10000 = randomBytes.getD 0 0 :=
    Nat.mod_eq_of_lt (by omega)
  refine ⟨by omega, by simp [generateOTP, fmt04, String.length], ?_⟩
  intro hcontra
  have h1000 : randomBytes.getD 0 0 % 10000 / 1000 % 10 = 0 := by omega
  have hhead : (generateOTP randomBytes).data.headD ' ' =
      digitChar (randomBytes.getD 0 0 % 10000 / 1000 % 10) := rfl
  rw [hcontra, h1000] at hhead
  exact absurd hhead (by decide)

theorem generateOTP_not_full_range_witness :
    ([255, 0] : List Nat).getD 0 0 % 10000 < 256 ∧
    (generateOTP [255, 0]).length = 4 ∧
    generateOTP [255, 0] ≠ "9999" :=
  generateOTP_not_full_range [255, 0] (by decide)

/-- C2: Token round-trip — issuing a token for an existing user (whose
plaintext hash is fresh in the store) and then verifying the returned
plaintext with the same scope strictly before the expiry instant returns
the originating user; verifying at or after the expiry instant yields
`ErrRecordNotFound`. -/
theorem token_roundtrip (sha256 : String → List Nat) (randomBytes : List Nat)
    (now ttl : Nat) (userId : Int) (scope : String) (db : DBState) (user : User)
    (_httl : 0 < ttl)
    (huser : db.users.find? (fun u => decide (u.ID = userId)) = some user)
    (hfresh : ∀ r ∈ db.tokens, r.hash ≠ sha256 (base32EncodeNoPad randomBytes)) :
    (TokenModel.New sha256 randomBytes now userId ttl scope db none).2.2 = none ∧
    (∀ t', t' < now + ttl →
      UserModel.GetForToken sha256
        (TokenModel.New sha256 randomBytes now userId ttl scope db none).2.1 none scope
        (TokenModel.New sha256 randomBytes now userId ttl scope db none).1.Plaintext t' =
        .ok user) ∧
    (∀ t', now + ttl ≤ t' →
      UserModel.GetForToken sha256
        (TokenModel.New sha256 randomBytes now userId ttl scope db none).2.1 none scope
        (TokenModel.New sha256 randomBytes now userId ttl scope db none).1.Plaintext t' =
        .error .recordNotFound) := by
  have hdb : (TokenModel.New sha256 randomBytes now userId ttl scope db none).2.1 =
      { db with tokens := db.tokens ++
          [⟨sha256 (base32EncodeNoPad randomBytes), userId, now + ttl, scope⟩] } := rfl
  have hplain : (TokenModel.New sha256 randomBytes now userId ttl scope db none).1.Plaintext =
      base32EncodeNoPad randomBytes := rfl
  refine ⟨rfl, ?_, ?_⟩
  · intro t' ht'
    rw [hdb, hplain]
    have hfalse : ∀ r ∈ db.tokens, (fun r : TokenRow =>
        decide (r.hash = sha256 (base32EncodeNoPad randomBytes) ∧
          r.scope = scope ∧ t' < r.expiry)) r = false := by
      intro r hr
      apply decide_eq_false
      rintro ⟨hh, -⟩
      exact hfresh r hr hh
    simp only [UserModel.GetForToken]
    rw [find?_append_none _ _ _ hfalse]
    simp [List.find?_cons, ht', huser]
  · intro t' ht'
    rw [hdb, hplain]
    have hfalse : ∀ r ∈ db.tokens ++
        [(⟨sha256 (base32EncodeNoPad randomBytes), userId, now + ttl, scope⟩ : TokenRow)],
        (fun r : TokenRow =>
          decide (r.hash = sha256 (base32EncodeNoPad randomBytes) ∧
            r.scope = scope ∧ t' < r.expiry)) r = false := by
      intro r hr
      rcases List.mem_append.mp hr with hl | hl
      · apply decide_eq_false
        rintro ⟨hh, -⟩
        exact hfresh r hl hh
      · rcases List.mem_singleton.mp hl with rfl
        apply decide_eq_false
        rintro ⟨-, -, hexp⟩
        have h2 : t' < now + ttl := hexp
        omega
    have hnone : (db.tokens ++
        [(⟨sha256 (base32EncodeNoPad randomBytes), userId, now + ttl, scope⟩ : TokenRow)]).find?
        (fun r : TokenRow =>
          decide (r.hash = sha256 (base32EncodeNoPad randomBytes) ∧
            r.scope = scope ∧ t' < r.expiry)) = none :=
      List.find?_eq_none.mpr (fun x hx => by simp [hfalse x hx])
    simp only [UserModel.GetForToken]
    rw [hnone]

theorem token_roundtrip_witness :
    (TokenModel.New (fun s => [utf8Len s]) (List.replicate 16 0) 0 1 100
        "authentication" ⟨[⟨1, 0, "Ann", "9998887777", 1⟩], []⟩ none).2.2 = none ∧
    UserModel.GetForToken (fun s => [utf8Len s])
      (TokenModel.New (fun s => [utf8Len s]) (List.replicate 16 0) 0 1 100
        "authentication" ⟨[⟨1, 0, "Ann", "9998887777", 1⟩], []⟩ none).2.1 none
      "authentication"
      (TokenModel.New (fun s => [utf8Len s]) (List.replicate 16 0) 0 1 100
        "authentication" ⟨[⟨1, 0, "Ann", "9998887777", 1⟩], []⟩ none).1.Plaintext 50 =
      .ok ⟨1, 0, "Ann", "9998887777", 1⟩ ∧
    UserModel.GetForToken (fun s => [utf8Len s])
      (TokenModel.New (fun s => [utf8Len s]) (List.replicate 16 0) 0 1 100
        "authentication" ⟨[⟨1, 0, "Ann", "9998887777", 1⟩], []⟩ none).2.1 none
      "authentication"
      (TokenModel.New (fun s => [utf8Len s]) (List.replicate 16 0) 0 1 100
        "authentication" ⟨[⟨1, 0, "Ann", "9998887777", 1⟩], []⟩ none).1.Plaintext 100 =
      .error .recordNotFound :=
  have h := token_roundtrip (fun s => [utf8Len s]) (List.replicate 16 0) 0 100 1
    "authentication" ⟨[⟨1, 0, "Ann", "9998887777", 1⟩], []⟩ ⟨1, 0, "Ann", "9998887777", 1⟩
    (by decide) (by rfl) (by simp)
  ⟨h.1, h.2.1 50 (by decide), h.2.2 100 (by decide)⟩

/-- C3 counterexample: with a failing INSERT, `TokenModel.New` reports
the storage error but still returns the token — plaintext included — to
its caller, contradicting "the plaintext token is not returned to the
caller". -/
theorem tokenNew_failure_returns_plaintext :
    (TokenModel.New (fun _ => [0]) (List.replicate 16 0) 0 1 (48 * hour)
        "authentication" ⟨[], []⟩ (some "insert failed")).2.2 = some "insert failed" ∧
    (TokenModel.New (fun _ => [0]) (List.replicate 16 0) 0 1 (48 * hour)
        "authentication" ⟨[], []⟩ (some "insert failed")).1.Plaintext =
      "AAAAAAAAAAAAAAAAAAAAAAAAAA" :=
  ⟨rfl, rfl⟩

/-- C3 (amended): when persisting the token record fails, `TokenModel.New`
returns the storage error together with the freshly generated token, and
the store is unchanged; the wrapper `generateTokenForUser` discards that
token and returns the empty string, so the plaintext does not propagate
past it. -/
theorem tokenIssuance_insert_failure (sha256 : String → List Nat)
    (randomBytes : List Nat) (now : Nat) (db : DBState) (userID : Int)
    (ttl : Nat) (scope : String) (e : String) :
    TokenModel.New sha256 randomBytes now userID ttl scope db (some e) =
      (generateToken sha256 randomBytes now userID ttl scope, db, some e) ∧
    generateTokenForUser sha256 randomBytes now db (some e) userID =
      ("", db, some ("failed to generate token: " ++ e)) :=
  ⟨rfl, rfl⟩

/-- C4: a present but malformed Authorization header — not exactly two
space-separated parts, or a scheme other than "Bearer", or a token whose
byte length differs from the expected 26 — makes the middleware answer
401 "Invalid authorization header" with no identity attached and zero
storage lookups. -/
theorem authenticate_malformed_rejected (store : String → Except DBError User)
    (header : String) (hne : header ≠ "")
    (hmal : ((splitOnChar ' ' header.data).map String.mk).length ≠ 2 ∨
            ((splitOnChar ' ' header.data).map String.mk).headD "" ≠ "Bearer" ∨
            utf8Len (((splitOnChar ' ' header.data).map String.mk).getD 1 "") ≠ 26) :
    authenticate store header = ⟨some (401, "Invalid authorization header"), none, 0⟩ := by
  simp only [authenticate]
  rw [if_neg hne]
  by_cases h12 : ((splitOnChar ' ' header.data).map String.mk).length ≠ 2 ∨
      ((splitOnChar ' ' header.data).map String.mk).headD "" ≠ "Bearer"
  · rw [if_pos h12]
  · rw [if_neg h12]
    push_neg at h12
    rcases hmal with h | h | h
    · exact absurd h12.1 h
    · exact absurd h12.2 h
    · rw [if_pos h]

theorem authenticate_malformed_rejected_witness :
    authenticate (fun _ => .error .recordNotFound) "Bearer short" =
      ⟨some (401, "Invalid authorization header"), none, 0⟩ :=
  authenticate_malformed_rejected _ "Bearer short" (by decide) (by decide)

/-- For any phone number whose live cache entry (if any) stores a code
different from the supplied one, `verifyOTPInRedis` fails — with
"invalid or expired OTP" when the record is missing or expired, with
"invalid OTP" when the stored code differs. -/
theorem verifyOTPInRedis_fail (σ : CacheState) (now : Nat) (phone otp : String)
    (hbad : ∀ e, σ phone = some e → now < e.expiresAt → otp ≠ e.otp) :
    (verifyOTPInRedis σ now phone otp).1 = .error "invalid or expired OTP" ∨
    (verifyOTPInRedis σ now phone otp).1 = .error "invalid OTP" := by
  unfold verifyOTPInRedis hGetAll
  cases hσ : σ phone with
  | none => simp
  | some e =>
    by_cases hexp : now < e.expiresAt
    · have hne : otp ≠ fieldGetD [("name", e.name), ("otp", e.otp)] "otp" := by
        rw [show fieldGetD [("name", e.name), ("otp", e.otp)] "otp" = e.otp from rfl]
        exact hbad e hσ hexp
      simp [hexp, hne]
    · simp [hexp]

/-- C5: a verification attempt (OTP field present) whose supplied code
does not match a live stored record — wrong code, missing record, or
expired record — is answered by the one 401 "Invalid or expired OTP"
error response: no token and no user in the body, both stores untouched,
no SMS spawned; wrong-OTP and expired/missing cases yield this same
response value. -/
theorem verify_failure_single_401 (σ : CacheState) (db : DBState) (now : Nat)
    (otpBytes : List Nat) (storeErr : Option String) (sha256 : String → List Nat)
    (tokenBytes : List Nat) (lookupErr : Option String) (newId : Int)
    (insertUserErr insertTokenErr : Option String) (name phone otp : String)
    (hphone : phone ≠ "") (hotp : otp ≠ "")
    (hbad : ∀ e, σ phone = some e → now < e.expiresAt → otp ≠ e.otp) :
    handleUserSignupAndVerification σ db now otpBytes storeErr sha256 tokenBytes
      lookupErr newId insertUserErr insertTokenErr ⟨name, phone, otp⟩ =
      ⟨errorResponse 401 "Invalid or expired OTP", σ, db, none⟩ ∧
    (errorResponse 401 "Invalid or expired OTP").token = none ∧
    (errorResponse 401 "Invalid or expired OTP").user = none := by
  refine ⟨?_, rfl, rfl⟩
  have h := verifyOTPInRedis_fail σ now phone otp hbad
  simp only [handleUserSignupAndVerification]
  rw [if_neg hphone, if_neg hotp]
  rcases h with h | h <;> rw [h]

/-- C6: a request with no Authorization header passes the middleware
with the anonymous identity attached (no error, no storage lookup), and
the `requireAuthenticatedUser` guard rejects exactly that anonymous
identity with 401 "Unauthorized" while letting any real user through. -/
theorem anonymous_identity_flow (store : String → Except DBError User) :
    authenticate store "" = ⟨none, some .anonymous, 0⟩ ∧
    requireAuthenticatedUser .anonymous = some (401, "Unauthorized") ∧
    (∀ u : User, requireAuthenticatedUser (.user u) = none) :=
  ⟨rfl, rfl, fun _ => rfl⟩

/-- C7 counterexample: with the user for phone "999" present in the
store but the lookup failing with a storage error ("connection timeout"
— not a report of absence), `createUserIfNotExists` still attempts an
INSERT (and produces a second row for the same phone number), so inserts
do not happen exactly when the lookup reports the user absent. -/
theorem createUser_inserts_on_lookup_error :
    (createUserIfNotExists ⟨[⟨1, 0, "Ann", "999", 1⟩], []⟩ (some "connection timeout")
        5 2 none "999" "Ann").insertAttempted = true ∧
    UserModel.GetByPhoneNumber ⟨[⟨1, 0, "Ann", "999", 1⟩], []⟩ (some "connection timeout")
        "999" = .error (.other "connection timeout") ∧
    (⟨1, 0, "Ann", "999", 1⟩ : User) ∈
      (⟨[⟨1, 0, "Ann", "999", 1⟩], []⟩ : DBState).users ∧
    (createUserIfNotExists ⟨[⟨1, 0, "Ann", "999", 1⟩], []⟩ (some "connection timeout")
        5 2 none "999" "Ann").dbAfter.users.length = 2 := by
  refine ⟨rfl, rfl, ?_, rfl⟩
  exact List.mem_singleton.mpr rfl

/-- C7 (amended): `createUserIfNotExists` first looks the user up by
phone number; when the lookup returns a user, that record is returned
unchanged, the store is untouched and no insert is attempted; an insert
is attempted exactly when the lookup returns no user — whether because
the record is absent (`sql.ErrNoRows`) or because the lookup itself
failed with a storage error. -/
theorem createUserIfNotExists_lookup_insert (db : DBState) (lookupErr : Option String)
    (now : Nat) (newId : Int) (insertErr : Option String) (phone name : String) :
    (∀ u, UserModel.GetByPhoneNumber db lookupErr phone = .ok u →
      createUserIfNotExists db lookupErr now newId insertErr phone name =
        ⟨.ok u, db, false⟩) ∧
    ((createUserIfNotExists db lookupErr now newId insertErr phone name).insertAttempted
        = true ↔
      ∃ e, UserModel.GetByPhoneNumber db lookupErr phone = .error e) := by
  constructor
  · intro u hu
    simp [createUserIfNotExists, hu]
  · cases hg : UserModel.GetByPhoneNumber db lookupErr phone with
    | ok u => simp [createUserIfNotExists, hg]
    | error e =>
      refine ⟨fun _ => ⟨e, rfl⟩, fun _ => ?_⟩
      simp only [createUserIfNotExists, hg]
      cases hins : UserModel.Insert db now newId insertErr name phone with
      | error e2 => simp [hins]
      | ok p =>
        obtain ⟨u, db'⟩ := p
        simp [hins]

theorem createUserIfNotExists_lookup_insert_witness :
    createUserIfNotExists ⟨[⟨1, 0, "Ann", "999", 1⟩], []⟩ none 7 2 none "999" "Bob" =
      ⟨.ok ⟨1, 0, "Ann", "999", 1⟩, ⟨[⟨1, 0, "Ann", "999", 1⟩], []⟩, false⟩ :=
  (createUserIfNotExists_lookup_insert ⟨[⟨1, 0, "Ann", "999", 1⟩], []⟩ none 7 2 none
    "999" "Bob").1 ⟨1, 0, "Ann", "999", 1⟩ rfl

/-- The verify operation performs only a Redis read: the cache state it
hands back is the input state, in every branch. -/
theorem verifyOTPInRedis_preserves (σ : CacheState) (now : Nat) (phone otp : String) :
    (verifyOTPInRedis σ now phone otp).2 = σ := by
  simp only [verifyOTPInRedis]
  split
  · rfl
  · split <;> rfl

/-- C8: OTP verification never deletes the pending record — the cache
state it returns is exactly the input state — so a successful Verify can
be replayed: a second Verify with the same code, run on the returned
state at any instant still inside the entry's expiry window, succeeds
with the same stored name. -/
theorem verifyOTP_no_delete_replay (σ : CacheState) (phone : String)
    (e : CacheEntry) (now now' : Nat)
    (he : σ phone = some e) (h1 : now < e.expiresAt) (h2 : now' < e.expiresAt) :
    (verifyOTPInRedis σ now phone e.otp).2 = σ ∧
    (verifyOTPInRedis σ now phone e.otp).1 = .ok e.name ∧
    (verifyOTPInRedis (verifyOTPInRedis σ now phone e.otp).2 now' phone e.otp).1 =
      .ok e.name := by
  have hsucc : ∀ t, t < e.expiresAt → (verifyOTPInRedis σ t phone e.otp).1 = .ok e.name := by
    intro t ht
    simp only [verifyOTPInRedis, hGetAll, he, ht, if_true]
    simp [show fieldGetD [("name", e.name), ("otp", e.otp)] "otp" = e.otp from rfl,
          show fieldGetD [("name", e.name), ("otp", e.otp)] "name" = e.name from rfl]
  refine ⟨verifyOTPInRedis_preserves σ now phone e.otp, hsucc now h1, ?_⟩
  rw [verifyOTPInRedis_preserves]
  exact hsucc now' h2

theorem verifyOTP_no_delete_replay_witness :
    (verifyOTPInRedis
        (fun k => if k = "999" then some ⟨"Ann", "1234", 300⟩ else none)
        10 "999" "1234").2 =
      (fun k => if k = "999" then some ⟨"Ann", "1234", 300⟩ else none) ∧
    (verifyOTPInRedis
        (fun k => if k = "999" then some ⟨"Ann", "1234", 300⟩ else none)
        10 "999" "1234").1 = .ok "Ann" ∧
    (verifyOTPInRedis
        (verifyOTPInRedis
          (fun k => if k = "999" then some ⟨"Ann", "1234", 300⟩ else none)
          10 "999" "1234").2
        250 "999" "1234").1 = .ok "Ann" :=
  verifyOTP_no_delete_replay
    (fun k => if k = "999" then some ⟨"Ann", "1234", 300⟩ else none)
    "999" ⟨"Ann", "1234", 300⟩ 10 250 (by simp) (by decide) (by decide)

theorem twilioTry_attempts_le (f : Nat → Bool) (r : Nat) :
    ∀ a, (twilioTry f a r).2.1 ≤ r := by
  induction r with
  | zero => intro a; simp [twilioTry]
  | succ r ih =>
    intro a
    by_cases hf : f a = true
    · simp only [twilioTry, hf, if_true]
      have := ih (a + 1)
      omega
    · simp [twilioTry, hf]

theorem twilioTry_sleeps_fixed (f : Nat → Bool) (r : Nat) :
    ∀ a, ∀ d ∈ (twilioTry f a r).2.2, d = 2 * second := by
  induction r with
  | zero => intro a d hd; simp [twilioTry] at hd
  | succ r ih =>
    intro a d hd
    by_cases hf : f a = true
    · simp only [twilioTry, hf, if_true, List.mem_cons] at hd
      rcases hd with rfl | hd
      · rfl
      · exact ih (a + 1) d hd
    · simp [twilioTry, hf] at hd

theorem twilioTry_all_fail (f : Nat → Bool) (r : Nat) :
    ∀ a, (∀ k, a ≤ k → k < a + r → f k = true) →
      twilioTry f a r = (.error "all retries failed to send OTP via Twilio", r,
        List.replicate r (2 * second)) := by
  induction r with
  | zero => intro a _; simp [twilioTry]
  | succ r ih =>
    intro a h
    have hfa : f a = true := h a le_rfl (by omega)
    have hrest := ih (a + 1) (fun k hk1 hk2 => h k (by omega) (by omega))
    simp [twilioTry, hfa, hrest, List.replicate_succ]

/-- C9: the SMS dispatcher makes at most 3 attempts with the fixed
2-second delay after each failure, and when every attempt fails the
background task reduces the error to a log line — nothing propagates.
The signup-initiation branch of the handler builds its 200 "OTP sent
successfully" response without consulting the dispatch outcome at all:
the outcome parameter does not appear in the response, which is the same
for every `attemptFails`. The dispatch is handed back as a spawned task
(`spawnedSMS`), never run before the response. `app.background` and
`app.writeJSON` themselves live in a helper file outside the sources at
hand and are modelled from the spec (fire-and-forget task, JSON envelope
writer). -/
theorem otp_dispatch_decoupled (σ : CacheState) (db : DBState) (now : Nat)
    (otpBytes : List Nat) (sha256 : String → List Nat) (tokenBytes : List Nat)
    (lookupErr : Option String) (newId : Int)
    (insertUserErr insertTokenErr : Option String) (name phone : String)
    (attemptFails : Nat → Bool)
    (hphone : phone ≠ "") (hname : name ≠ "") :
    (handleUserSignupAndVerification σ db now otpBytes none sha256 tokenBytes
        lookupErr newId insertUserErr insertTokenErr ⟨name, phone, ""⟩).response =
      { status := 200, success := some true, message := "OTP sent successfully" } ∧
    (handleUserSignupAndVerification σ db now otpBytes none sha256 tokenBytes
        lookupErr newId insertUserErr insertTokenErr ⟨name, phone, ""⟩).spawnedSMS =
      some (generateOTP otpBytes, phone) ∧
    (sendOTPViaTwilio attemptFails).2.1 ≤ 3 ∧
    (∀ d ∈ (sendOTPViaTwilio attemptFails).2.2, d = 2 * second) ∧
    ((∀ k, 1 ≤ k → k ≤ 3 → attemptFails k = true) →
      (sendOTPViaTwilio attemptFails).2.1 = 3 ∧
      backgroundSMSTask attemptFails =
        ["Error sending OTP via Twilio: all retries failed to send OTP via Twilio"]) := by
  refine ⟨?_, ?_, twilioTry_attempts_le attemptFails 3 1,
          twilioTry_sleeps_fixed attemptFails 3 1, ?_⟩
  · simp [handleUserSignupAndVerification, hphone, hname]
  · simp [handleUserSignupAndVerification, hphone, hname]
  · intro hall
    have h3 := twilioTry_all_fail attemptFails 3 1
      (fun k hk1 hk2 => hall k hk1 (by omega))
    constructor
    · show (twilioTry attemptFails 1 3).2.1 = 3
      rw [h3]
    · show backgroundSMSTask attemptFails = _
      simp [backgroundSMSTask, sendOTPViaTwilio, h3]

theorem otp_dispatch_decoupled_witness :
    (handleUserSignupAndVerification (fun _ => none) ⟨[], []⟩ 0 [7] none
        (fun _ => []) [] none 1 none none ⟨"Ann", "9998887777", ""⟩).response =
      { status := 200, success := some true, message := "OTP sent successfully" } ∧
    (handleUserSignupAndVerification (fun _ => none) ⟨[], []⟩ 0 [7] none
        (fun _ => []) [] none 1 none none ⟨"Ann", "9998887777", ""⟩).spawnedSMS =
      some (generateOTP [7], "9998887777") ∧
    (sendOTPViaTwilio (fun _ => true)).2.1 ≤ 3 ∧
    (∀ d ∈ (sendOTPViaTwilio (fun _ => true)).2.2, d = 2 * second) ∧
    ((∀ k, 1 ≤ k → k ≤ 3 → (fun _ => true) k = true) →
      (sendOTPViaTwilio (fun _ => true)).2.1 = 3 ∧
      backgroundSMSTask (fun _ => true) =
        ["Error sending OTP via Twilio: all retries failed to send OTP via Twilio"]) :=
  otp_dispatch_decoupled (fun _ => none) ⟨[], []⟩ 0 [7] (fun _ => []) [] none 1
    none none "Ann" "9998887777" (fun _ => true) (by decide) (by decide)

/-- C10: a token issued through the signup/verification path
(`generateTokenForUser`) persists a row with scope "authentication" and
expiry exactly 48 hours after issuance, and its returned plaintext is the
unpadded base-32 encoding of the 16 random bytes — 26 bytes long, so the
middleware's length test passes and `authenticate` proceeds to the
storage lookup on a `Bearer` header carrying it. -/
theorem issued_token_shape (sha256 : String → List Nat) (randomBytes : List Nat)
    (now : Nat) (db : DBState) (userId : Int) (hrb : randomBytes.length = 16) :
    (generateTokenForUser sha256 randomBytes now db none userId).1 =
      base32EncodeNoPad randomBytes ∧
    utf8Len (generateTokenForUser sha256 randomBytes now db none userId).1 = 26 ∧
    (generateTokenForUser sha256 randomBytes now db none userId).2.1.tokens =
      db.tokens ++ [⟨sha256 (base32EncodeNoPad randomBytes), userId,
        now + 48 * hour, ScopeAuthentication⟩] ∧
    (∀ store : String → Except DBError User,
      (authenticate store
        ("Bearer " ++ (generateTokenForUser sha256 randomBytes now db none userId).1)).storeLookups
        = 1) := by
  have hlen : utf8Len (base32EncodeNoPad randomBytes) = 26 := by
    rw [utf8Len_base32, hrb]
  refine ⟨rfl, hlen, rfl, ?_⟩
  intro store
  show (authenticate store ("Bearer " ++ base32EncodeNoPad randomBytes)).storeLookups = 1
  have hne : ("Bearer " ++ base32EncodeNoPad randomBytes) ≠ "" := by
    intro h
    have hdata : ("Bearer " ++ base32EncodeNoPad randomBytes).data = [] := by
      rw [h]
    rw [String.data_append] at hdata
    simp at hdata
  have hsplit : splitOnChar ' ' ("Bearer " ++ base32EncodeNoPad randomBytes).data =
      ["Bearer".data, (base32EncodeNoPad randomBytes).data] :=
    splitOnChar_bearer (base32EncodeNoPad randomBytes) (base32_no_space randomBytes)
  simp only [authenticate]
  rw [if_neg hne, hsplit]
  simp only [List.map_cons, List.map_nil]
  rw [show String.mk ("Bearer".data) = "Bearer" from rfl,
      show String.mk ((base32EncodeNoPad randomBytes).data) = base32EncodeNoPad randomBytes
        from rfl]
  rw [if_neg (by simp)]
  have hgetD : ([("Bearer" : String), base32EncodeNoPad randomBytes]).getD 1 "" =
      base32EncodeNoPad randomBytes := rfl
  rw [hgetD, if_neg (by rw [hlen]; omega)]
  cases hs : store (base32EncodeNoPad randomBytes) with
  | ok u => rfl
  | error e => cases e <;> rfl

theorem issued_token_shape_witness :
    (generateTokenForUser (fun _ => [0]) (List.replicate 16 0) 0 ⟨[], []⟩ none 1).1 =
      base32EncodeNoPad (List.replicate 16 0) ∧
    utf8Len (generateTokenForUser (fun _ => [0]) (List.replicate 16 0) 0 ⟨[], []⟩ none 1).1
      = 26 ∧
    (generateTokenForUser (fun _ => [0]) (List.replicate 16 0) 0 ⟨[], []⟩ none 1).2.1.tokens =
      ([] : List TokenRow) ++ [⟨[0], 1, 0 + 48 * hour, ScopeAuthentication⟩] ∧
    (∀ store : String → Except DBError User,
      (authenticate store
        ("Bearer " ++
          (generateTokenForUser (fun _ => [0]) (List.replicate 16 0) 0 ⟨[], []⟩ none 1).1)).storeLookups
        = 1) :=
  issued_token_shape (fun _ => [0]) (List.replicate 16 0) 0 ⟨[], []⟩ 1 (by simp)

theorem verify_failure_single_401_witness :
    handleUserSignupAndVerification
        (fun k => if k = "9998887777" then some ⟨"Ann", "1234", 300⟩ else none)
        ⟨[], []⟩ 0 [] none (fun _ => []) [] none 1 none none
        ⟨"", "9998887777", "0000"⟩ =
      ⟨errorResponse 401 "Invalid or expired OTP",
       (fun k => if k = "9998887777" then some ⟨"Ann", "1234", 300⟩ else none),
       ⟨[], []⟩, none⟩ ∧
    (errorResponse 401 "Invalid or expired OTP").token = none ∧
    (errorResponse 401 "Invalid or expired OTP").user = none :=
  verify_failure_single_401
    (fun k => if k = "9998887777" then some ⟨"Ann", "1234", 300⟩ else none)
    ⟨[], []⟩ 0 [] none (fun _ => []) [] none 1 none none "" "9998887777" "0000"
    (by decide) (by decide)
    (by
      intro e he _
      simp only [if_pos rfl] at he
      cases he
      decide)
